import Mathlib

/-!
Verification of the OpenAPI normalization pipeline of `mcp-universal-adapter`
(`src/mcp_adapter/parsers/openapi.py`, `src/mcp_adapter/parsers/base.py`,
`src/mcp_adapter/models/api_spec.py`).

The loaded document tree (the result of JSON/YAML decoding) is embedded as
`JValue`.  Dictionary lookups follow Python `dict.get` semantics: the first
binding of a key wins.  Python truthiness (`if not spec`, `a or b`) is
embedded by `JValue.truthy` / `pyOr`.

Crash paths on malformed values are modelled explicitly where the program
has them: `validate` raises `AttributeError` for a truthy non-mapping
document or a non-string `openapi` value, and the parameter-type table
lookup raises `TypeError` for an unhashable declared type; both propagate
out of `parse` as `Except` errors.  At the remaining extraction sites the
code only reads nested mappings that a structurally well-formed document
provides; there a `.get` on a non-mapping is modelled as yielding no keys,
and string-valued positions are read with `jGetStrD` / `jGetStr?`, which
yield the default when the stored value is not a string.
-/

/-- Untyped document tree produced by the loader (JSON/YAML value). -/
inductive JValue where
  | null
  | bool (b : Bool)
  | num (n : Int)
  | str (s : String)
  | arr (elems : List JValue)
  | obj (fields : List (String × JValue))

/-- Python truthiness of a document value (`bool(v)`). -/
def JValue.truthy : JValue → Bool
  | .null => false
  | .bool b => b
  | .num n => n != 0
  | .str s => s != ""
  | .arr xs => !xs.isEmpty
  | .obj kvs => !kvs.isEmpty

/-- The fields of a mapping; a non-mapping has none. -/
def JValue.objD : JValue → List (String × JValue)
  | .obj kvs => kvs
  | _ => []

/-- The elements of a sequence; a non-sequence has none. -/
def JValue.arrD : JValue → List JValue
  | .arr xs => xs
  | _ => []

/-- Python `d.get(k)`: the value stored under `k`, if any. -/
def jGet? (v : JValue) (k : String) : Option JValue :=
  List.lookup k v.objD

/-- Python `d.get(k, default)`. -/
def jGetD (v : JValue) (k : String) (d : JValue) : JValue :=
  (jGet? v k).getD d

/-- Python `k in d`. -/
def jHasKey (v : JValue) (k : String) : Bool :=
  (jGet? v k).isSome

/-- A string stored under `k`, if the key holds a string. -/
def jGetStr? (v : JValue) (k : String) : Option String :=
  match jGet? v k with
  | some (.str s) => some s
  | _ => none

/-- Python `d.get(k, default)` at a string-valued position. -/
def jGetStrD (v : JValue) (k : String) (d : String) : String :=
  (jGetStr? v k).getD d

/-- Python `a or b` on document values. -/
def pyOr (a b : JValue) : JValue :=
  if a.truthy then a else b

/-- ASCII lower-casing of one character; Python `str.lower` restricted to
the ASCII range (the only characters the source's call sites receive). -/
def pyLowerChar (c : Char) : Char :=
  if 65 ≤ c.toNat && c.toNat ≤ 90 then Char.ofNat (c.toNat + 32) else c

/-- Python `s.lower()`. -/
def pyLower (s : String) : String :=
  ⟨s.data.map pyLowerChar⟩

/-- Whether the first list is an initial segment of the second. -/
def listStartsWith : List Char → List Char → Bool
  | [], _ => true
  | _ :: _, [] => false
  | p :: ps, x :: xs => p == x && listStartsWith ps xs

/-- Python `s.startswith(pre)`. -/
def pyStartsWith (s pre : String) : Bool :=
  listStartsWith pre.data s.data

/-- Python `c in s` for a single character. -/
def pyContains (s : String) (c : Char) : Bool :=
  s.data.contains c

/-- Python `s.split(sep)` for a one-character separator: every occurrence
separates, adjacent separators produce empty fields, `"".split(sep)`
is `[""]`. -/
def pySplitChar (sep : Char) : List Char → List (List Char)
  | [] => [[]]
  | x :: xs =>
    let r := pySplitChar sep xs
    if x == sep then [] :: r
    else
      match r with
      | h :: t => (x :: h) :: t
      | [] => [[x]]

/-- Python `s.split(sep)` (one-character separator). -/
def pySplit (s : String) (sep : Char) : List String :=
  (pySplitChar sep s.data).map String.mk

/-- Python `s.replace(old, new)` for one-character `old` and `new` (the only
form the source uses: `.replace(" ", "_")`). -/
def pyReplaceChar (old new : Char) (s : String) : String :=
  ⟨s.data.map (fun c => if c == old then new else c)⟩

/-- HTTP methods (`HTTPMethod` enum in `api_spec.py`). -/
inductive HTTPMethod where
  | GET | POST | PUT | PATCH | DELETE | HEAD | OPTIONS
deriving DecidableEq

/-- The enum's string value. -/
def HTTPMethod.value : HTTPMethod → String
  | .GET => "GET"
  | .POST => "POST"
  | .PUT => "PUT"
  | .PATCH => "PATCH"
  | .DELETE => "DELETE"
  | .HEAD => "HEAD"
  | .OPTIONS => "OPTIONS"

/-- Parameter locations (`ParameterLocation` enum in `api_spec.py`). -/
inductive ParameterLocation where
  | QUERY | HEADER | PATH | BODY | COOKIE
deriving DecidableEq

/-- `ParameterLocation(value)`: enum construction by value; `none` models the
`ValueError` Python raises for an unknown value. -/
def ParameterLocation.fromString? : String → Option ParameterLocation
  | "query" => some .QUERY
  | "header" => some .HEADER
  | "path" => some .PATH
  | "body" => some .BODY
  | "cookie" => some .COOKIE
  | _ => none

/-- Authentication kinds (`AuthType` enum in `api_spec.py`). -/
inductive AuthType where
  | NONE | API_KEY | BEARER | BASIC | OAUTH2 | CUSTOM
deriving DecidableEq

/-- Schema for one property (`PropertySchema` model in `api_spec.py`).
Recursive through `items` (array element schema) and `properties` (object
member schemas); constraint fields are copied verbatim from the document,
so they are stored as raw document values. -/
inductive PropertySchema where
  | mk
    (name : String)
    (type : String)
    (description : Option JValue)
    (required : JValue)
    (default : Option JValue)
    (enum : Option JValue)
    (format : Option JValue)
    (pattern : Option JValue)
    (min_length : Option JValue)
    (max_length : Option JValue)
    (minimum : Option JValue)
    (maximum : Option JValue)
    (items : Option PropertySchema)
    (properties : Option (List (String × PropertySchema)))
    (example_val : Option JValue)

/-- The `name` field of a property schema. -/
def PropertySchema.name : PropertySchema → String
  | .mk n _ _ _ _ _ _ _ _ _ _ _ _ _ _ => n

/-- The `type` field of a property schema. -/
def PropertySchema.type : PropertySchema → String
  | .mk _ t _ _ _ _ _ _ _ _ _ _ _ _ _ => t

/-- The `items` field of a property schema. -/
def PropertySchema.items : PropertySchema → Option PropertySchema
  | .mk _ _ _ _ _ _ _ _ _ _ _ _ i _ _ => i

/-- The `properties` field of a property schema. -/
def PropertySchema.properties : PropertySchema → Option (List (String × PropertySchema))
  | .mk _ _ _ _ _ _ _ _ _ _ _ _ _ p _ => p

/-- Request/response schema (`SchemaModel` in `api_spec.py`). -/
structure SchemaModel where
  name : String
  description : Option JValue := none
  properties : List (String × PropertySchema) := []
  required : JValue := .arr []
  example_val : Option JValue := none

/-- Server configuration (`ServerConfig` in `api_spec.py`). -/
structure ServerConfig where
  url : String
  description : Option JValue := none
  vars : JValue := .obj []

/-- API parameter (`Parameter` in `api_spec.py`).  Note the detailed-schema
field is named `schema`; there is no field named `param_schema`. -/
structure Parameter where
  name : String
  location : ParameterLocation
  type : String
  description : Option JValue := none
  required : JValue := .bool false
  default : Option JValue := none
  schema : Option PropertySchema := none
  example_val : JValue := .null

/-- A value passed as a keyword argument to the `Parameter` constructor. -/
inductive PVal where
  | vstr (s : String)
  | vloc (l : ParameterLocation)
  | vjson (v : JValue)
  | voptj (v : Option JValue)
  | vprop (p : PropertySchema)

/-- String extracted from a keyword-argument list, with field default. -/
def kwStr (kwargs : List (String × PVal)) (k : String) (d : String) : String :=
  match List.lookup k kwargs with
  | some (.vstr s) => s
  | _ => d

/-- Raw document value extracted from a keyword-argument list. -/
def kwJson (kwargs : List (String × PVal)) (k : String) (d : JValue) : JValue :=
  match List.lookup k kwargs with
  | some (.vjson v) => v
  | _ => d

/-- Optional document value extracted from a keyword-argument list. -/
def kwOptJ (kwargs : List (String × PVal)) (k : String) : Option JValue :=
  match List.lookup k kwargs with
  | some (.voptj v) => v
  | _ => none

/-- The pydantic-v2 `Parameter(**kwargs)` constructor: each declared field
takes the value passed under the field's own name, or its default when that
name is absent; keyword arguments whose name matches no declared field are
silently ignored (`extra` defaults to `ignore`). -/
def Parameter.fromKwargs (kwargs : List (String × PVal)) : Parameter :=
  { name := kwStr kwargs "name" ""
    location :=
      match List.lookup "location" kwargs with
      | some (.vloc l) => l
      | _ => .QUERY
    type := kwStr kwargs "type" ""
    description := kwOptJ kwargs "description"
    required := kwJson kwargs "required" (.bool false)
    default := kwOptJ kwargs "default"
    schema :=
      match List.lookup "schema" kwargs with
      | some (.vprop p) => some p
      | _ => none
    example_val := kwJson kwargs "example" .null }

/-- Authentication configuration (`AuthConfig` in `api_spec.py`). -/
structure AuthConfig where
  type : AuthType
  name : String := "auth"
  location : ParameterLocation := .HEADER
  scheme : Option String := none
  description : Option JValue := none
  authorization_url : Option JValue := none
  token_url : Option JValue := none
  scopes : JValue := .obj []

/-- API endpoint (`Endpoint` in `api_spec.py`). -/
structure Endpoint where
  path : String
  method : HTTPMethod
  operation_id : Option String := none
  summary : Option JValue := none
  description : Option JValue := none
  tags : JValue := .arr []
  parameters : List Parameter := []
  request_body : Option SchemaModel := none
  response_schema : Option SchemaModel := none
  deprecated : JValue := .bool false
  external_docs : Option JValue := none

/-- The normalized API model (`NormalizedAPISpec` in `api_spec.py`). -/
structure NormalizedAPISpec where
  name : String
  version : String := "1.0.0"
  description : Option JValue := none
  base_url : Option String := none
  servers : List ServerConfig := []
  endpoints : List Endpoint := []
  auth : Option AuthConfig := none
  schemas : List (String × SchemaModel) := []
  contact : Option JValue := none
  license : Option JValue := none
  external_docs : Option JValue := none
  tags : List (String × String) := []
  source_format : String := "unknown"
  source_url : Option String := none

/-- Python exception kinds that can leave the parse pipeline.  The first
three are the parser's own error hierarchy (`ParserError` and its
specializations, `parsers/base.py`); the rest are raw library/builtin
exceptions. -/
inductive PyExc where
  | parserError
  | validationError
  | networkError
  | jsonDecodeError
  | yamlError
  | osError
  | valueError
  | typeError
  | attributeError
  | assertionError
deriving DecidableEq

/-- Whether an exception belongs to the parser's three-kind hierarchy
(`ParserError` / `ParserValidationError` / `ParserNetworkError`). -/
def PyExc.isParserKind : PyExc → Bool
  | .parserError | .validationError | .networkError => true
  | _ => false

/-- A value found by key lookup is smaller than the field list holding it. -/
theorem sizeOf_lookup {k : String} {fs : List (String × JValue)} {w : JValue}
    (h : List.lookup k fs = some w) : sizeOf w < sizeOf fs := by
  induction fs with
  | nil => simp [List.lookup] at h
  | cons p rest ih =>
    rw [List.lookup] at h
    split at h
    · cases h
      cases p
      simp
      omega
    · have := ih h
      simp
      omega

/-- A value found by `jGet?` is smaller than the mapping holding it. -/
theorem sizeOf_jGet {v w : JValue} {k : String} (h : jGet? v k = some w) :
    sizeOf w < sizeOf v := by
  unfold jGet? at h
  cases v <;> simp [JValue.objD, List.lookup] at h
  case obj fs =>
    have := sizeOf_lookup h
    simp
    omega

/-- A field of a mapping is smaller than the mapping. -/
theorem sizeOf_mem_objD {v : JValue} {kv : String × JValue} (h : kv ∈ v.objD) :
    sizeOf kv.2 < sizeOf v := by
  cases v <;> simp [JValue.objD] at h
  case obj fs =>
    have h1 := List.sizeOf_lt_of_mem h
    have h2 : sizeOf kv.2 < sizeOf kv := by
      cases kv
      simp
    simp
    omega

/-- `OpenAPIParser._build_property_schema`: build a `PropertySchema` from an
OpenAPI schema object, recursing into `items` of an `array`-typed schema and
into `properties` of an `object`-typed schema. -/
def build_property_schema (name : String) (schema : JValue) : PropertySchema :=
  let prop_type := jGetStrD schema "type" "string"
  let items :=
    if prop_type = "array" then
      match h : jGet? schema "items" with
      | some itemSchema => some (build_property_schema "item" itemSchema)
      | none => none
    else none
  let properties :=
    if prop_type = "object" then
      match h : jGet? schema "properties" with
      | some props =>
        some (props.objD.attach.map (fun kv =>
          (kv.1.1, build_property_schema kv.1.1 kv.1.2)))
      | none => none
    else none
  .mk name prop_type (jGet? schema "description") (jGetD schema "required" (.bool false))
    (jGet? schema "default") (jGet? schema "enum") (jGet? schema "format")
    (jGet? schema "pattern") (jGet? schema "minLength") (jGet? schema "maxLength")
    (jGet? schema "minimum") (jGet? schema "maximum") items properties
    (jGet? schema "example")
termination_by sizeOf schema
decreasing_by
  · exact sizeOf_jGet h
  · have h1 := sizeOf_mem_objD kv.2
    have h2 := sizeOf_jGet h
    omega

/-- `OpenAPIParser._build_schema_model`: build a named `SchemaModel`, each
declared property going through the recursive property-schema rule. -/
def build_schema_model (name : String) (schema : JValue) : SchemaModel :=
  { name := name
    description := jGet? schema "description"
    properties := ((jGetD schema "properties" (JValue.obj [])).objD).map
      (fun kv => (kv.1, build_property_schema kv.1 kv.2))
    required := jGetD schema "required" (.arr [])
    example_val := jGet? schema "example" }

/-- The fixed OpenAPI-type → semantic-type table of
`OpenAPIParser._openapi_type_to_python`. -/
def type_map : List (String × String) :=
  [("string", "str"), ("integer", "int"), ("number", "float"),
   ("boolean", "bool"), ("array", "list"), ("object", "dict")]

/-- `OpenAPIParser._openapi_type_to_python`: `type_map.get(openapi_type,
"Any")`.  The parameter is annotated `str` in the source but receives the
raw declared value from `schema.get("type", "string")`: a string key is
looked up in the table; a hashable non-string key (int, float, bool,
None) matches no string key and yields the default `"Any"`; an unhashable
key (a list or dict, e.g. OpenAPI 3.1 `type: ["string", "null"]`) makes
`dict.get` raise `TypeError`, which nothing in the parser catches. -/
def openapi_type_to_python (openapi_type : JValue) : Except PyExc String :=
  match openapi_type with
  | .str s => .ok ((List.lookup s type_map).getD "Any")
  | .arr _ => .error .typeError
  | .obj _ => .error .typeError
  | _ => .ok "Any"

/-- The `in`-value → location table of `OpenAPIParser._build_parameter`. -/
def location_map : List (String × ParameterLocation) :=
  [("query", .QUERY), ("header", .HEADER), ("path", .PATH), ("cookie", .COOKIE)]

/-- `OpenAPIParser._build_parameter`: build a `Parameter` from an OpenAPI
parameter object.  The constructor is called with the keyword arguments the
source passes; note the built property schema is passed under the keyword
`param_schema`, which is not a field of `Parameter`. -/
def build_parameter (param : JValue) : Except PyExc Parameter :=
  let schema := jGetD param "schema" (JValue.obj [])
  (openapi_type_to_python (jGetD schema "type" (JValue.str "string"))).map
    fun param_type => Parameter.fromKwargs
    [ ("name", .vstr (jGetStrD param "name" ""))
    , ("location", .vloc ((List.lookup (jGetStrD param "in" "query") location_map).getD .QUERY))
    , ("type", .vstr param_type)
    , ("description", .voptj (jGet? param "description"))
    , ("required", .vjson (jGetD param "required" (.bool false)))
    , ("default", .voptj (jGet? schema "default"))
    , ("param_schema", .vprop (build_property_schema (jGetStrD param "name" "") schema))
    , ("example", .vjson (pyOr (jGetD param "example" .null) (jGetD schema "example" .null)))
    ]

/-- `OpenAPIParser._build_request_body`: resolve the request-body media type
(`application/json`, `or`-fallback `application/x-www-form-urlencoded`,
Python truthiness), then build the schema under the synthetic name
`"RequestBody"`. -/
def build_request_body (request_body : JValue) : Option SchemaModel :=
  let content := jGetD request_body "content" (JValue.obj [])
  let media_type := pyOr (jGetD content "application/json" .null)
    (jGetD content "application/x-www-form-urlencoded" .null)
  if !media_type.truthy then none
  else some (build_schema_model "RequestBody" (jGetD media_type "schema" (JValue.obj [])))

/-- `OpenAPIParser._build_response_schema`: resolve `application/json`
content, then build the schema under the synthetic name `"Response"`. -/
def build_response_schema (response : JValue) : Option SchemaModel :=
  let content := jGetD response "content" (JValue.obj [])
  let media_type := jGetD content "application/json" .null
  if !media_type.truthy then none
  else some (build_schema_model "Response" (jGetD media_type "schema" (JValue.obj [])))

/-- The response-schema selection of `OpenAPIParser._build_endpoint`
(lines 187-193): status `"200"` first, else `"201"`, else nothing. -/
def response_schema_of (operation : JValue) : Option SchemaModel :=
  let responses := jGetD operation "responses" (JValue.obj [])
  if jHasKey responses "200" then build_response_schema (jGetD responses "200" .null)
  else if jHasKey responses "201" then build_response_schema (jGetD responses "201" .null)
  else none

/-- `OpenAPIParser._build_endpoint`: build an `Endpoint` from one OpenAPI
operation object.  The parameter loop runs first and left to right, so the
first `TypeError` a parameter raises aborts the build. -/
def build_endpoint (path : String) (method : HTTPMethod) (operation : JValue) :
    Except PyExc Endpoint :=
  (((jGetD operation "parameters" (.arr [])).arrD).mapM build_parameter).map
    fun parameters =>
      { path := path
        method := method
        operation_id := jGetStr? operation "operationId"
        summary := jGet? operation "summary"
        description := jGet? operation "description"
        tags := jGetD operation "tags" (.arr [])
        parameters := parameters
        request_body :=
          if jHasKey operation "requestBody" then
            build_request_body (jGetD operation "requestBody" .null)
          else none
        response_schema := response_schema_of operation
        deprecated := jGetD operation "deprecated" (.bool false)
        external_docs := jGet? (jGetD operation "externalDocs" (JValue.obj [])) "url" }

/-- The fixed method iteration order of `OpenAPIParser._extract_endpoints`,
each lower-case key paired with the enum member `HTTPMethod(method.upper())`
produces. -/
def methodOrder : List (String × HTTPMethod) :=
  [("get", .GET), ("post", .POST), ("put", .PUT), ("patch", .PATCH),
   ("delete", .DELETE), ("head", .HEAD), ("options", .OPTIONS)]

/-- The present (path, method, operation) triples of a document, in the
loop order of `OpenAPIParser._extract_endpoints`: path entries in document
order and, within each path item, the fixed method list in its fixed
order. -/
def present_operations (spec : JValue) : List (String × HTTPMethod × JValue) :=
  ((jGetD spec "paths" (JValue.obj [])).objD).flatMap (fun pp =>
    methodOrder.filterMap (fun m =>
      match jGet? pp.2 m.1 with
      | none => none
      | some operation => some (pp.1, m.2, operation)))

/-- `OpenAPIParser._extract_endpoints`: one endpoint per present method key,
appended in loop order; the enumeration itself cannot raise, so building
the present operations one by one with the first exception aborting is
exactly the nested loop's control flow. -/
def extract_endpoints (spec : JValue) : Except PyExc (List Endpoint) :=
  (present_operations spec).mapM (fun x => build_endpoint x.1 x.2.1 x.2.2)

/-- `OpenAPIParser._extract_servers`. -/
def extract_servers (spec : JValue) : List ServerConfig :=
  ((jGetD spec "servers" (JValue.arr [])).arrD).map (fun server =>
    { url := jGetStrD server "url" ""
      description := jGet? server "description"
      vars := jGetD server "variables" (.obj []) })

/-- `OpenAPIParser._extract_schemas`. -/
def extract_schemas (spec : JValue) : List (String × SchemaModel) :=
  ((jGetD (jGetD spec "components" (JValue.obj [])) "schemas" (JValue.obj [])).objD).map
    (fun kv => (kv.1, build_schema_model kv.1 kv.2))

/-- The per-scheme classification of `OpenAPIParser._extract_auth`.
`ParameterLocation(scheme.get("in", "header"))` raises `ValueError` for an
unknown location string, which the source does not catch. -/
def classify_scheme (scheme : JValue) : Except PyExc (Option AuthConfig) :=
  let scheme_type := pyLower (jGetStrD scheme "type" "")
  if scheme_type = "apikey" then
    match ParameterLocation.fromString? (jGetStrD scheme "in" "header") with
    | none => .error .valueError
    | some loc =>
      .ok (some { type := .API_KEY
                  name := jGetStrD scheme "name" "api_key"
                  location := loc
                  description := jGet? scheme "description" })
  else if scheme_type = "http" then
    let http_scheme := pyLower (jGetStrD scheme "scheme" "")
    if http_scheme = "bearer" then
      .ok (some { type := .BEARER
                  scheme := some "Bearer"
                  description := jGet? scheme "description" })
    else if http_scheme = "basic" then
      .ok (some { type := .BASIC
                  scheme := some "Basic"
                  description := jGet? scheme "description" })
    else .ok none
  else if scheme_type = "oauth2" then
    let flows := jGetD scheme "flows" (JValue.obj [])
    let flow := pyOr (jGetD flows "authorizationCode" .null)
      (pyOr (jGetD flows "implicit" .null) (jGetD flows "password" .null))
    if flow.truthy then
      .ok (some { type := .OAUTH2
                  authorization_url := jGet? flow "authorizationUrl"
                  token_url := jGet? flow "tokenUrl"
                  scopes := jGetD flow "scopes" (.obj [])
                  description := jGet? scheme "description" })
    else .ok none
  else .ok none

/-- `OpenAPIParser._extract_auth`: no security schemes means no auth;
otherwise the first scheme in document-iteration order is classified. -/
def extract_auth (spec : JValue) : Except PyExc (Option AuthConfig) :=
  let security_schemes :=
    jGetD (jGetD spec "components" (JValue.obj [])) "securitySchemes" (JValue.obj [])
  if !security_schemes.truthy then .ok none
  else
    match security_schemes.objD with
    | [] => .ok none
    | (_, scheme) :: _ => classify_scheme scheme

/-- `OpenAPIParser.validate`: a falsy loaded document (Python `None`, or
empty) fails at once; after that `self.spec.get("openapi", "")` raises
`AttributeError` when the document is not a mapping, and
`openapi_version.startswith("3.")` raises `AttributeError` when the stored
`openapi` value is not a string (e.g. YAML `openapi: 3.0`, a float);
otherwise the document passes iff the `openapi` value starts with `"3."`
and both `info` and `paths` keys are present. -/
def validate (spec : Option JValue) : Except PyExc Bool :=
  match spec with
  | none => .ok false
  | some s =>
    if !s.truthy then .ok false
    else
      match s with
      | .obj _ =>
        match jGetD s "openapi" (.str "") with
        | .str openapi_version =>
          if !(pyStartsWith openapi_version "3.") then .ok false
          else if !(jHasKey s "info") then .ok false
          else if !(jHasKey s "paths") then .ok false
          else .ok true
        | _ => .error .attributeError
      | _ => .error .attributeError

/-- The `NormalizedAPISpec(...)` construction at the end of
`OpenAPIParser.parse` (the `source_url` argument depends on the source
string, not on the document; it is modelled as absent). -/
def buildSpec (s : JValue) (endpoints : List Endpoint) (auth : Option AuthConfig) :
    NormalizedAPISpec :=
  let info := jGetD s "info" (JValue.obj [])
  let servers := extract_servers s
  { name := jGetStrD info "title" "Unknown API"
    version := jGetStrD info "version" "1.0.0"
    description := jGet? info "description"
    base_url := servers.head?.map ServerConfig.url
    servers := servers
    endpoints := endpoints
    auth := auth
    schemas := extract_schemas s
    contact := jGet? info "contact"
    license := jGet? info "license"
    external_docs := jGet? (jGetD s "externalDocs" (JValue.obj [])) "url"
    tags := ((jGetD s "tags" (JValue.arr [])).arrD).map
      (fun t => (jGetStrD t "name" "", jGetStrD t "description" ""))
    source_format := "openapi"
    source_url := none }

/-- The normalization phase of `OpenAPIParser.parse` after validation: the
component extractions in source order (endpoints at line 59 before auth at
line 60), threading the exceptions `_extract_endpoints` (`TypeError`) and
`_extract_auth` (`ValueError`) can raise. -/
def normalizeDoc (s : JValue) : Except PyExc NormalizedAPISpec :=
  match extract_endpoints s with
  | .error e => .error e
  | .ok endpoints =>
    match extract_auth s with
    | .error e => .error e
    | .ok auth => .ok (buildSpec s endpoints auth)

/-- `OpenAPIParser.parse` after loading: an exception from `validate`
propagates, a `False` verdict raises `ParserValidationError`, and a `True`
verdict proceeds to normalization.  (The `none` branch is unreachable:
`validate none` never yields `True`; it mirrors the source's `assert`.) -/
def parseLoaded (spec : Option JValue) : Except PyExc NormalizedAPISpec :=
  match validate spec with
  | .error e => .error e
  | .ok false => .error .validationError
  | .ok true =>
    match spec with
    | none => .error .assertionError
    | some s => normalizeDoc s

/-- `NormalizedAPISpec.primary_server`: the base URL when truthy, else the
first server URL, else nothing. -/
def NormalizedAPISpec.primary_server (s : NormalizedAPISpec) : Option String :=
  if (match s.base_url with | some b => b != "" | none => false : Bool) then s.base_url
  else
    match s.servers with
    | s0 :: _ => some s0.url
    | [] => none

/-- The tool-name derivation of `Endpoint.tool_name` for the
no-`operationId` case: resource from the path segments, method-dependent
verb, joined and lower-cased. -/
def derive_tool_name (path : String) (method : HTTPMethod) : String :=
  let path_parts := (pySplit path '/').filter (fun p => p != "" && !(pyStartsWith p "\x7b"))
  let resource := path_parts.getLast?.getD "resource"
  let pfx :=
    match method with
    | .GET => if pyContains path '\x7b' then "get" else "list"
    | .POST => "create"
    | .PUT => "update"
    | .PATCH => "update"
    | .DELETE => "delete"
    | m => pyLower m.value
  pyLower (pfx ++ "_" ++ resource)

/-- `Endpoint.tool_name`: a truthy (present, non-empty) `operationId` is
lower-cased with spaces replaced by underscores; otherwise the name is
derived from method and path. -/
def Endpoint.tool_name (e : Endpoint) : String :=
  match e.operation_id with
  | some oid =>
    if oid ≠ "" then pyReplaceChar ' ' '_' (pyLower oid)
    else derive_tool_name e.path e.method
  | none => derive_tool_name e.path e.method

/-- The environment a single `_load_spec` call runs against: what kind of
source the string names and what the underlying I/O and decoding
operations yield.  An `Except`-error models the library exception the
operation raises (`httpx.HTTPError` for `fetch`, `OSError` or
`UnicodeDecodeError` for `read_text`, `json.JSONDecodeError` /
`yaml.YAMLError` for the decoders); `ok none` is a decode that yields
Python `None`. -/
structure LoadEnv where
  is_url : Bool
  is_file : Bool
  fetch : Except Unit String
  read_text : Except Unit String
  suffix : String
  jsonDecode : String → Except Unit (Option JValue)
  yamlDecode : String → Except Unit (Option JValue)

/-- `OpenAPIParser._load_spec`.  URL branch: only `httpx.HTTPError` is
caught (→ `ParserNetworkError`); a YAML failure after a JSON failure
escapes as a raw `yaml.YAMLError`.  File branch: `path.read_text()` sits
outside the `try`, so its `OSError`/`UnicodeDecodeError` escapes raw; every
decode failure inside the `try` becomes a `ParserError`.  Unknown source:
`ParserError`. -/
def load_spec (env : LoadEnv) : Except PyExc (Option JValue) :=
  if env.is_url then
    match env.fetch with
    | .error _ => .error .networkError
    | .ok text =>
      match env.jsonDecode text with
      | .ok v => .ok v
      | .error _ =>
        match env.yamlDecode text with
        | .ok v => .ok v
        | .error _ => .error .yamlError
  else if env.is_file then
    match env.read_text with
    | .error _ => .error .osError
    | .ok content =>
      if env.suffix = ".json" then
        match env.jsonDecode content with
        | .ok v => .ok v
        | .error _ => .error .parserError
      else if env.suffix = ".yaml" || env.suffix = ".yml" then
        match env.yamlDecode content with
        | .ok v => .ok v
        | .error _ => .error .parserError
      else
        match env.jsonDecode content with
        | .ok v => .ok v
        | .error _ =>
          match env.yamlDecode content with
          | .ok v => .ok v
          | .error _ => .error .parserError
  else .error .parserError

/-- `OpenAPIParser.parse`: load, then validate and normalize. -/
def parse (env : LoadEnv) : Except PyExc NormalizedAPISpec :=
  match load_spec env with
  | .error e => .error e
  | .ok spec => parseLoaded spec

/-! ## Helper lemmas -/

/-- A chain of early-return `if !· then .ok false` tests yields `.ok` of
the conjunction of the tests. -/
theorem iteChainE (b c d : Bool) :
    (if !b then (Except.ok false : Except PyExc Bool) else if !c then .ok false
     else if !d then .ok false else .ok true) = .ok (b && c && d) := by
  cases b <;> cases c <;> cases d <;> rfl

/-- The only exception `_extract_auth` can raise is the `ValueError` from
`ParameterLocation(...)`. -/
theorem extract_auth_error (s : JValue) (e : PyExc) (h : extract_auth s = .error e) :
    e = .valueError := by
  simp only [extract_auth, classify_scheme] at h
  repeat' split at h
  all_goals simp_all

/-- The only exception the type-table lookup can raise is the `TypeError`
from an unhashable key. -/
theorem openapi_type_error (v : JValue) (e : PyExc)
    (h : openapi_type_to_python v = .error e) : e = .typeError := by
  cases v <;> simp_all [openapi_type_to_python]

/-- An error from an Except-valued `mapM` comes from one of the list's
elements. -/
theorem mapM_error {α β : Type} (f : α → Except PyExc β) :
    ∀ (l : List α) (e : PyExc), l.mapM f = .error e → ∃ x ∈ l, f x = .error e := by
  intro l
  induction l with
  | nil =>
    intro e h
    simp [List.mapM, List.mapM.loop, pure, Except.pure] at h
  | cons x xs ih =>
    intro e h
    rw [List.mapM_cons] at h
    cases hx : f x with
    | error e1 =>
      rw [hx] at h
      simp [Bind.bind, Except.bind] at h
      exact ⟨x, by simp, by rw [hx, h]⟩
    | ok y =>
      rw [hx] at h
      simp only [Bind.bind, Except.bind] at h
      cases hxs : xs.mapM f with
      | error e1 =>
        rw [hxs] at h
        simp at h
        obtain ⟨z, hz, hfz⟩ := ih e1 hxs
        exact ⟨z, by simp [hz], by rw [hfz, h]⟩
      | ok ys =>
        rw [hxs] at h
        simp [pure, Except.pure] at h

/-- The only exception `_build_parameter` can raise is the `TypeError` of
the type-table lookup. -/
theorem build_parameter_error (p : JValue) (e : PyExc)
    (h : build_parameter p = .error e) : e = .typeError := by
  simp only [build_parameter] at h
  cases hot : openapi_type_to_python
      (jGetD (jGetD p "schema" (JValue.obj [])) "type" (JValue.str "string")) with
  | ok t => rw [hot] at h; simp [Except.map] at h
  | error e1 =>
    rw [hot] at h
    simp [Except.map] at h
    exact h ▸ openapi_type_error _ _ hot

/-- The only exception `_extract_endpoints` can raise is a parameter's
`TypeError`. -/
theorem extract_endpoints_error (s : JValue) (e : PyExc)
    (h : extract_endpoints s = .error e) : e = .typeError := by
  obtain ⟨x, _, hfx⟩ := mapM_error _ _ e h
  simp only [build_endpoint] at hfx
  cases hbe : ((jGetD x.2.2 "parameters" (.arr [])).arrD).mapM build_parameter with
  | ok ps => rw [hbe] at hfx; simp [Except.map] at hfx
  | error e1 =>
    rw [hbe] at hfx
    simp [Except.map] at hfx
    obtain ⟨p, _, hfp⟩ := mapM_error _ _ e1 hbe
    exact hfx ▸ build_parameter_error p e1 hfp

/-- Normalization can only raise the endpoint `TypeError` or the auth
`ValueError`; in particular it never raises `ValidationError`. -/
theorem normalizeDoc_error (s : JValue) (e : PyExc)
    (h : normalizeDoc s = .error e) : e = .typeError ∨ e = .valueError := by
  unfold normalizeDoc at h
  cases hE : extract_endpoints s with
  | error e1 =>
    rw [hE] at h
    simp at h
    exact Or.inl (h ▸ extract_endpoints_error s e1 hE)
  | ok eps =>
    rw [hE] at h
    cases hA : extract_auth s with
    | error e1 =>
      rw [hA] at h
      simp at h
      exact Or.inr (h ▸ extract_auth_error s e1 hA)
    | ok a =>
      rw [hA] at h
      simp at h

/-! ## C1: the validation gate -/

/-- The claim's structural checks, as the spec words them: the loaded
document is non-empty, its `openapi` value starts with `"3."`, and the
`info` and `paths` keys are present. -/
def structuralChecks (d : Option JValue) : Bool :=
  match d with
  | none => false
  | some s =>
    s.truthy && pyStartsWith (jGetStrD s "openapi" "") "3."
      && jHasKey s "info" && jHasKey s "paths"

/-- The domain on which `validate` completes without raising: the document
is absent or falsy, or it is a mapping whose `openapi` value (when
present) is a string. -/
def docGetsSafely : Option JValue → Bool
  | none => true
  | some s =>
    !s.truthy ||
      (match s with
       | .obj _ =>
         (match jGet? s "openapi" with
          | none => true
          | some (.str _) => true
          | some _ => false)
       | _ => false)

/-- On its non-raising domain, `validate` decides exactly the claim's
structural checks. -/
theorem validate_eq_structuralChecks (d : Option JValue)
    (h : docGetsSafely d = true) : validate d = .ok (structuralChecks d) := by
  cases d with
  | none => rfl
  | some s =>
    by_cases ht : s.truthy = true
    · simp only [docGetsSafely, ht, Bool.not_true, Bool.false_or] at h
      cases s with
      | null => simp at h
      | bool b => simp at h
      | num n => simp at h
      | str t => simp at h
      | arr xs => simp at h
      | obj fs =>
        cases hov : jGet? (.obj fs) "openapi" with
        | none =>
          have hd : jGetD (.obj fs) "openapi" (.str "") = .str "" := by
            simp [jGetD, hov]
          have hsd : jGetStrD (.obj fs) "openapi" "" = "" := by
            simp [jGetStrD, jGetStr?, hov]
          simp only [validate, structuralChecks, ht, Bool.not_true, Bool.true_and,
            Bool.false_eq_true, if_false, hd, hsd]
          exact iteChainE _ _ _
        | some v =>
          rw [hov] at h
          cases v with
          | null => simp at h
          | bool b => simp at h
          | num n => simp at h
          | arr xs => simp at h
          | obj gs => simp at h
          | str t =>
            have hd : jGetD (.obj fs) "openapi" (.str "") = .str t := by
              simp [jGetD, hov]
            have hsd : jGetStrD (.obj fs) "openapi" "" = t := by
              simp [jGetStrD, jGetStr?, hov]
            simp only [validate, structuralChecks, ht, Bool.not_true, Bool.true_and,
              Bool.false_eq_true, if_false, hd, hsd]
            exact iteChainE _ _ _
    · simp only [Bool.not_eq_true] at ht
      simp [validate, structuralChecks, ht]

def c1pass : JValue := .obj [("openapi", .str "3.0.3"), ("info", .obj []), ("paths", .obj [])]
def c1v2 : JValue := .obj [("openapi", .str "2.0"), ("info", .obj []), ("paths", .obj [])]
def c1noinfo : JValue := .obj [("openapi", .str "3.0.3"), ("paths", .obj [])]
def c1nopaths : JValue := .obj [("openapi", .str "3.0.3"), ("info", .obj [])]
def c1nonstring : JValue := .obj [("openapi", .num 3), ("info", .obj []), ("paths", .obj [])]

/-- C1 counterexample: a document declaring `openapi: 3` (a YAML number,
not a string).  It fails the claim's structural checks — a number does not
start with `"3."` — so the claim as stated demands `ValidationError`; the
program instead raises `AttributeError` from
`openapi_version.startswith("3.")`, which escapes `parse`. -/
theorem C1_counterexample :
    structuralChecks (some c1nonstring) = false
    ∧ parseLoaded (some c1nonstring) = .error .attributeError
    ∧ parseLoaded (some c1nonstring) ≠ .error .validationError := by
  refine ⟨rfl, rfl, ?_⟩
  intro h
  rw [show parseLoaded (some c1nonstring) = .error .attributeError from rfl] at h
  simp at h

/-- C1 (amended): on loaded documents where the structural checks can run
without raising — the document is absent or falsy, or a mapping whose
`openapi` value (when present) is a string — `parse` raises
`ValidationError` exactly when the checks fail (document empty, `openapi`
not starting with `"3."`, `info` absent, or `paths` absent) and proceeds
to normalization otherwise; a truthy non-mapping document, or a present
non-string `openapi` value, instead raises `AttributeError`.  The claim's
concrete instances follow: `openapi: "3.0.3"` with `info` and `paths`
passes, while `openapi: "2.0"` or a missing `info`/`paths` raises
`ValidationError`. -/
theorem C1_amended :
    (∀ d : Option JValue, docGetsSafely d = true →
      ((parseLoaded d = .error .validationError ↔ structuralChecks d = false)
       ∧ (structuralChecks d = true → ∃ s, d = some s ∧ parseLoaded d = normalizeDoc s)))
    ∧ (∀ s : JValue, s.truthy = true → (∀ fs, s ≠ .obj fs) →
        parseLoaded (some s) = .error .attributeError)
    ∧ (∀ fs : List (String × JValue), (JValue.obj fs).truthy = true →
        ∀ v : JValue, jGet? (.obj fs) "openapi" = some v → (∀ t, v ≠ .str t) →
          parseLoaded (some (.obj fs)) = .error .attributeError)
    ∧ parseLoaded (some c1pass) = normalizeDoc c1pass
    ∧ parseLoaded (some c1v2) = .error .validationError
    ∧ parseLoaded (some c1noinfo) = .error .validationError
    ∧ parseLoaded (some c1nopaths) = .error .validationError := by
  refine ⟨?_, ?_, ?_, rfl, rfl, rfl, rfl⟩
  · intro d hsafe
    have hv := validate_eq_structuralChecks d hsafe
    cases hsc : structuralChecks d with
    | false =>
      rw [hsc] at hv
      refine ⟨⟨fun _ => rfl, fun _ => ?_⟩, fun hc => by simp at hc⟩
      simp [parseLoaded, hv]
    | true =>
      rw [hsc] at hv
      cases d with
      | none => simp [structuralChecks] at hsc
      | some s =>
        have hP : parseLoaded (some s) = normalizeDoc s := by
          simp [parseLoaded, hv]
        refine ⟨⟨fun h => ?_, fun h => by simp at h⟩, fun _ => ⟨s, rfl, hP⟩⟩
        rw [hP] at h
        rcases normalizeDoc_error s _ h with he | he <;> simp at he
  · intro s ht hno
    cases s with
    | obj fs => exact absurd rfl (hno fs)
    | null => simp [JValue.truthy] at ht
    | bool b => simp [parseLoaded, validate, ht]
    | num n => simp [parseLoaded, validate, ht]
    | str t => simp [parseLoaded, validate, ht]
    | arr xs => simp [parseLoaded, validate, ht]
  · intro fs ht v hov hvt
    have hd : jGetD (.obj fs) "openapi" (.str "") = v := by
      simp [jGetD, hov]
    cases v with
    | str t => exact absurd rfl (hvt t)
    | null => simp [parseLoaded, validate, ht, hd]
    | bool b => simp [parseLoaded, validate, ht, hd]
    | num n => simp [parseLoaded, validate, ht, hd]
    | arr xs => simp [parseLoaded, validate, ht, hd]
    | obj gs => simp [parseLoaded, validate, ht, hd]

/-- Witness: the passing document is in the safe domain and reaches
normalization. -/
theorem C1_amended_witness :
    (parseLoaded (some c1pass) = .error .validationError ↔
      structuralChecks (some c1pass) = false)
    ∧ (structuralChecks (some c1pass) = true →
        ∃ s, some c1pass = some s ∧ parseLoaded (some c1pass) = normalizeDoc s) :=
  C1_amended.1 (some c1pass) rfl

/-! ## C2: tool-name derivation -/

/-- The derived tool name as the claim words it: prefix and resource
computed directly and joined lower-cased. -/
def claim_derived_name (path : String) (method : HTTPMethod) : String :=
  pyLower
    ((match method with
      | .GET => if pyContains path '\x7b' then "get" else "list"
      | .POST => "create"
      | .PUT => "update"
      | .PATCH => "update"
      | .DELETE => "delete"
      | m => pyLower m.value)
     ++ "_" ++
     (((pySplit path '/').filter
        (fun p => p != "" && !(pyStartsWith p "\x7b"))).getLast?.getD "resource"))

/-- The tool name exactly as the claim states it: any present operation
identifier (empty included) is lower-cased with spaces replaced by
underscores; only an absent identifier falls to derivation. -/
def claim_tool_name (e : Endpoint) : String :=
  match e.operation_id with
  | some oid => pyReplaceChar ' ' '_' (pyLower oid)
  | none => claim_derived_name e.path e.method

def c2empty_oid : Endpoint := { path := "/pets", method := .GET, operation_id := some "" }

/-- C2 counterexample: an endpoint with a present but empty operation
identifier.  The claim as stated gives the empty tool name; the code's
truthiness test (`if self.operation_id:`) falls through to derivation and
yields `"list_pets"`. -/
theorem C2_counterexample :
    Endpoint.tool_name c2empty_oid ≠ claim_tool_name c2empty_oid
      ∧ Endpoint.tool_name c2empty_oid = "list_pets"
      ∧ claim_tool_name c2empty_oid = "" := by
  refine ⟨?_, rfl, rfl⟩
  intro h
  rw [show Endpoint.tool_name c2empty_oid = "list_pets" from rfl,
      show claim_tool_name c2empty_oid = "" from rfl] at h
  exact absurd h (by decide)

def c2list : Endpoint := { path := "/pets", method := .GET }
def c2get : Endpoint := { path := "/pets/\x7bpetId\x7d", method := .GET }
def c2create : Endpoint := { path := "/pets", method := .POST }
def c2update : Endpoint := { path := "/pets/\x7bpetId\x7d", method := .PUT }
def c2delete : Endpoint := { path := "/pets/\x7bpetId\x7d", method := .DELETE }

/-- C2 (amended): when the operation identifier is absent *or empty*, the
tool name is prefix_resource lower-cased with resource the last non-empty
non-placeholder path segment (or `"resource"`) and the prefix from the
method table; a present non-empty identifier is lower-cased with spaces
replaced by underscores.  The spec's five derivation examples follow. -/
theorem C2_amended :
    (∀ e : Endpoint, (e.operation_id = none ∨ e.operation_id = some "") →
        Endpoint.tool_name e = claim_derived_name e.path e.method)
    ∧ (∀ e : Endpoint, ∀ oid : String, e.operation_id = some oid → oid ≠ "" →
        Endpoint.tool_name e = pyReplaceChar ' ' '_' (pyLower oid))
    ∧ Endpoint.tool_name c2list = "list_pets"
    ∧ Endpoint.tool_name c2get = "get_pets"
    ∧ Endpoint.tool_name c2create = "create_pets"
    ∧ Endpoint.tool_name c2update = "update_pets"
    ∧ Endpoint.tool_name c2delete = "delete_pets" := by
  refine ⟨?_, ?_, rfl, rfl, rfl, rfl, rfl⟩
  · intro e h
    rcases h with h | h <;>
      simp [Endpoint.tool_name, h, derive_tool_name, claim_derived_name]
  · intro e oid h hne
    simp [Endpoint.tool_name, h, hne]

/-- Witness: a non-empty identifier with a space is normalized to
lower-case with an underscore. -/
theorem C2_amended_witness :
    Endpoint.tool_name { path := "/x", method := .GET, operation_id := some "List Pets" } =
      pyReplaceChar ' ' '_' (pyLower "List Pets") :=
  C2_amended.2.1 { path := "/x", method := .GET, operation_id := some "List Pets" }
    "List Pets" rfl (by decide)

/-! ## C3: endpoint extraction -/

/-- A filterMap through a lookup equals filtering on key presence and
mapping the stored values. -/
theorem filterMap_map_eq_filter_map {α β γ : Type} (l : List α)
    (g : α → Option β) (f : α → β → γ) (d : β) :
    l.filterMap (fun a => (g a).map (f a))
    = (l.filter (fun a => (g a).isSome)).map (fun a => f a ((g a).getD d)) := by
  induction l with
  | nil => rfl
  | cons x xs ih =>
    cases hx : g x <;> simp [List.filterMap_cons, List.filter_cons, hx, ih]

def c3doc : JValue := .obj [("openapi", .str "3.0.0"), ("info", .obj []),
  ("paths", .obj [("/pets", .obj [("post", .obj []), ("get", .obj []), ("trace", .obj [])]),
                  ("/pets/\x7bpetId\x7d", .obj [("get", .obj [])])])]

/-- C3: extraction builds exactly one endpoint per (path, method) pair
whose method key is present — path entries in document order and, within a
path, methods in the fixed order get, post, put, patch, delete, head,
options — and method keys outside the fixed set produce no endpoint (in
the example document the `trace` key is skipped and `get` precedes `post`
even though the document lists `post` first). -/
theorem C3_endpoint_extraction :
    (∀ spec : JValue,
      extract_endpoints spec =
        (((jGetD spec "paths" (JValue.obj [])).objD).flatMap (fun pp =>
          (methodOrder.filter (fun m => jHasKey pp.2 m.1)).map (fun m =>
            (pp.1, m.2, jGetD pp.2 m.1 JValue.null)))).mapM
          (fun x => build_endpoint x.1 x.2.1 x.2.2))
    ∧ (extract_endpoints c3doc).map (List.map (fun e => (e.path, e.method.value))) =
        .ok [("/pets", "GET"), ("/pets", "POST"), ("/pets/\x7bpetId\x7d", "GET")] := by
  refine ⟨?_, rfl⟩
  intro spec
  unfold extract_endpoints present_operations
  have h : ∀ pp : String × JValue,
      methodOrder.filterMap (fun m =>
        match jGet? pp.2 m.1 with
        | none => none
        | some operation => some (pp.1, m.2, operation)) =
      (methodOrder.filter (fun m => jHasKey pp.2 m.1)).map (fun m =>
        (pp.1, m.2, jGetD pp.2 m.1 JValue.null)) := by
    intro pp
    have hfun : (fun (m : String × HTTPMethod) =>
        match jGet? pp.2 m.1 with
        | none => none
        | some operation => some (pp.1, m.2, operation)) =
        (fun m => (jGet? pp.2 m.1).map (fun op => (pp.1, m.2, op))) := by
      funext m
      cases jGet? pp.2 m.1 <;> rfl
    rw [hfun]
    exact filterMap_map_eq_filter_map methodOrder (fun m => jGet? pp.2 m.1)
      (fun m op => (pp.1, m.2, op)) JValue.null
  simp only [h]

/-! ## C4: error taxonomy -/

def c4auth_doc : JValue := .obj [("openapi", .str "3.0.0"), ("info", .obj []), ("paths", .obj []),
  ("components", .obj [("securitySchemes",
    .obj [("key", .obj [("type", .str "apiKey"), ("in", .str "bad")])])])]

/-- A readable local `.json` file whose document loads and validates fine
but declares an apiKey security scheme with an unrecognized `in` value. -/
def c4env_auth : LoadEnv :=
  { is_url := false
    is_file := true
    fetch := .ok ""
    read_text := .ok "spec-text"
    suffix := ".json"
    jsonDecode := fun _ => .ok (some c4auth_doc)
    yamlDecode := fun _ => .ok none }

/-- An existing local file whose `read_text` raises (permission error or
invalid UTF-8); the call sits outside the `try` in `_load_spec`. -/
def c4env_unreadable : LoadEnv :=
  { is_url := false
    is_file := true
    fetch := .ok ""
    read_text := .error ()
    suffix := ".json"
    jsonDecode := fun _ => .ok none
    yamlDecode := fun _ => .ok none }

/-- A URL source whose body is neither valid JSON nor valid YAML; the YAML
failure is not an `httpx.HTTPError`, so the `except` clause misses it. -/
def c4env_badyaml : LoadEnv :=
  { is_url := true
    is_file := false
    fetch := .ok "not-a-spec"
    read_text := .ok ""
    suffix := ""
    jsonDecode := fun _ => .error ()
    yamlDecode := fun _ => .error () }

/-- C4: the claim that only the three parser error kinds escape `parse`
fails on the code.  Three escape routes: the uncaught `ValueError` from
`ParameterLocation(...)` in `_extract_auth`, the `OSError` /
`UnicodeDecodeError` from `path.read_text()` outside the `try` in
`_load_spec`, and the `yaml.YAMLError` in the URL branch whose `except`
only catches `httpx.HTTPError`. -/
theorem C4_escapes :
    parse c4env_auth = .error .valueError
    ∧ parse c4env_unreadable = .error .osError
    ∧ parse c4env_badyaml = .error .yamlError
    ∧ PyExc.isParserKind .valueError = false
    ∧ PyExc.isParserKind .osError = false
    ∧ PyExc.isParserKind .yamlError = false :=
  ⟨rfl, rfl, rfl, rfl, rfl, rfl⟩

/-! ## C5: parameter type mapping -/

def c5param : JValue := .obj [("name", .str "limit"), ("in", .str "query")]
def c5list_param : JValue := .obj [("name", .str "x"),
  ("schema", .obj [("type", .arr [.str "string", .str "null"])])]

/-- C5 counterexample: a parameter with no schema, hence no declared type.
The claim says the semantic type is `Any` for an absent type; the code
first defaults the absent type to `"string"` and only then applies the
table, yielding `"str"`.  A second defect in the claim's "any other
declared type" clause: an unhashable declared type (OpenAPI 3.1
`type: ["string", "null"]`) does not map to `Any` either — the table
lookup raises `TypeError`. -/
theorem C5_counterexample :
    jGet? (jGetD c5param "schema" (JValue.obj [])) "type" = none
    ∧ (build_parameter c5param).map Parameter.type = .ok "str"
    ∧ (build_parameter c5param).map Parameter.type ≠ .ok "Any"
    ∧ build_parameter c5list_param = .error .typeError := by
  refine ⟨rfl, rfl, ?_, rfl⟩
  intro h
  rw [show (build_parameter c5param).map Parameter.type = .ok "str" from rfl] at h
  simp at h

/-- C5 (amended): the semantic type is `type_map.get` applied to the
declared schema type, with the absent case defaulting to `"string"`
*before* the lookup — string→str, integer→int, number→float, boolean→bool,
array→list, object→dict, any other *string* declared type→Any, and an
absent type→str.  A non-string declared value is passed to the lookup raw:
an unhashable value (array/object) raises `TypeError`, and any other
non-string value misses every key and yields `Any`. -/
theorem C5_amended :
    (∀ param : JValue, (build_parameter param).map Parameter.type =
        openapi_type_to_python
          (jGetD (jGetD param "schema" (JValue.obj [])) "type" (JValue.str "string")))
    ∧ openapi_type_to_python (.str "string") = .ok "str"
    ∧ openapi_type_to_python (.str "integer") = .ok "int"
    ∧ openapi_type_to_python (.str "number") = .ok "float"
    ∧ openapi_type_to_python (.str "boolean") = .ok "bool"
    ∧ openapi_type_to_python (.str "array") = .ok "list"
    ∧ openapi_type_to_python (.str "object") = .ok "dict"
    ∧ (∀ t : String, t ≠ "string" → t ≠ "integer" → t ≠ "number" → t ≠ "boolean" →
        t ≠ "array" → t ≠ "object" → openapi_type_to_python (.str t) = .ok "Any")
    ∧ (∀ xs : List JValue, openapi_type_to_python (.arr xs) = .error .typeError)
    ∧ (∀ fs : List (String × JValue), openapi_type_to_python (.obj fs) = .error .typeError)
    ∧ openapi_type_to_python .null = .ok "Any"
    ∧ (∀ b : Bool, openapi_type_to_python (.bool b) = .ok "Any")
    ∧ (∀ n : Int, openapi_type_to_python (.num n) = .ok "Any")
    ∧ (∀ param : JValue,
        jGet? (jGetD param "schema" (JValue.obj [])) "type" = none →
        (build_parameter param).map Parameter.type = .ok "str") := by
  refine ⟨?_, rfl, rfl, rfl, rfl, rfl, rfl, ?_, fun _ => rfl, fun _ => rfl, rfl,
    fun _ => rfl, fun _ => rfl, ?_⟩
  · intro param
    simp only [build_parameter]
    cases h : openapi_type_to_python
        (jGetD (jGetD param "schema" (JValue.obj [])) "type" (JValue.str "string")) with
    | ok t => simp [Except.map, Parameter.fromKwargs, kwStr, List.lookup]
    | error e => simp [Except.map]
  · intro t h1 h2 h3 h4 h5 h6
    have e1 : (t == "string") = false := beq_eq_false_iff_ne.mpr h1
    have e2 : (t == "integer") = false := beq_eq_false_iff_ne.mpr h2
    have e3 : (t == "number") = false := beq_eq_false_iff_ne.mpr h3
    have e4 : (t == "boolean") = false := beq_eq_false_iff_ne.mpr h4
    have e5 : (t == "array") = false := beq_eq_false_iff_ne.mpr h5
    have e6 : (t == "object") = false := beq_eq_false_iff_ne.mpr h6
    simp [openapi_type_to_python, type_map, List.lookup, e1, e2, e3, e4, e5, e6]
  · intro param h
    have hd : jGetD (jGetD param "schema" (JValue.obj [])) "type" (JValue.str "string") =
        JValue.str "string" := by
      unfold jGetD at h ⊢
      rw [h]
      rfl
    simp only [build_parameter, hd]
    rfl

/-- Witness: an out-of-table declared string type maps to `Any`. -/
theorem C5_amended_witness : openapi_type_to_python (.str "date") = .ok "Any" :=
  C5_amended.2.2.2.2.2.2.2.1 "date" (by decide) (by decide) (by decide) (by decide)
    (by decide) (by decide)

/-! ## C6: request-body media resolution -/

def c6rb : JValue := .obj [("content", .obj [("application/json", .obj [])])]

/-- C6 counterexample: a request body declaring `application/json` with an
empty media object.  The media type is present, so the claim's
present-media branch demands a `"RequestBody"` schema; the code's
truthiness `or`-chain treats the falsy (empty) object as absent and yields
no schema. -/
theorem C6_counterexample :
    jHasKey (jGetD c6rb "content" (JValue.obj [])) "application/json" = true
    ∧ build_request_body c6rb = none := ⟨rfl, rfl⟩

/-- C6 (amended): the request-body schema is resolved by trying the
*truthy* (present and non-empty) `application/json` media object first,
then the truthy `application/x-www-form-urlencoded` one; when neither is
truthy (absent or empty) the endpoint has no request-body schema, and when
one is truthy its schema is built under the synthetic name `"RequestBody"`
through the recursive schema-building rule. -/
theorem C6_amended (rb : JValue) :
    ((jGetD (jGetD rb "content" (JValue.obj [])) "application/json" .null).truthy = true →
      build_request_body rb = some (build_schema_model "RequestBody"
        (jGetD (jGetD (jGetD rb "content" (JValue.obj [])) "application/json" .null)
          "schema" (JValue.obj []))))
    ∧ ((jGetD (jGetD rb "content" (JValue.obj [])) "application/json" .null).truthy = false →
       (jGetD (jGetD rb "content" (JValue.obj []))
          "application/x-www-form-urlencoded" .null).truthy = true →
      build_request_body rb = some (build_schema_model "RequestBody"
        (jGetD (jGetD (jGetD rb "content" (JValue.obj []))
          "application/x-www-form-urlencoded" .null) "schema" (JValue.obj []))))
    ∧ ((jGetD (jGetD rb "content" (JValue.obj [])) "application/json" .null).truthy = false →
       (jGetD (jGetD rb "content" (JValue.obj []))
          "application/x-www-form-urlencoded" .null).truthy = false →
      build_request_body rb = none) := by
  refine ⟨fun h1 => ?_, fun h1 h2 => ?_, fun h1 h2 => ?_⟩
  · simp [build_request_body, pyOr, h1]
  · simp [build_request_body, pyOr, h1, h2]
  · simp [build_request_body, pyOr, h1, h2]

def c6rb_json : JValue := .obj [("content", .obj [("application/json",
  .obj [("schema", .obj [("type", .str "object")])])])]

/-- Witness: a truthy JSON media object yields the `"RequestBody"` schema. -/
theorem C6_amended_witness :
    build_request_body c6rb_json = some (build_schema_model "RequestBody"
      (jGetD (jGetD (jGetD c6rb_json "content" (JValue.obj [])) "application/json" .null)
        "schema" (JValue.obj []))) :=
  (C6_amended c6rb_json).1 rfl

/-! ## C7: response-schema status selection -/

def c7op204 : JValue := .obj [("responses", .obj [("204", .obj []), ("202", .obj [])])]

/-- C7: the response schema is taken from the response declared under
status `"200"` when that key is present, otherwise from `"201"`; all other
status codes are ignored, so an operation whose only responses sit under
`204`/`202` has no response schema.  `build_endpoint` stores exactly this
selection. -/
theorem C7_response_selection :
    (∀ operation r : JValue,
        jGet? (jGetD operation "responses" (JValue.obj [])) "200" = some r →
        response_schema_of operation = build_response_schema r)
    ∧ (∀ operation r : JValue,
        jGet? (jGetD operation "responses" (JValue.obj [])) "200" = none →
        jGet? (jGetD operation "responses" (JValue.obj [])) "201" = some r →
        response_schema_of operation = build_response_schema r)
    ∧ (∀ operation : JValue,
        jGet? (jGetD operation "responses" (JValue.obj [])) "200" = none →
        jGet? (jGetD operation "responses" (JValue.obj [])) "201" = none →
        response_schema_of operation = none)
    ∧ (∀ (path : String) (method : HTTPMethod) (operation : JValue) (e : Endpoint),
        build_endpoint path method operation = .ok e →
        e.response_schema = response_schema_of operation)
    ∧ response_schema_of c7op204 = none := by
  refine ⟨?_, ?_, ?_, ?_, rfl⟩
  rotate_right
  · intro path method operation e h
    simp only [build_endpoint] at h
    cases hps : ((jGetD operation "parameters" (.arr [])).arrD).mapM build_parameter with
    | error e1 => rw [hps] at h; simp [Except.map] at h
    | ok ps =>
      rw [hps] at h
      simp only [Except.map, Except.ok.injEq] at h
      rw [← h]
  · intro op r h
    unfold jGetD at h
    simp [response_schema_of, jHasKey, jGetD, h]
  · intro op r h200 h201
    unfold jGetD at h200 h201
    simp [response_schema_of, jHasKey, jGetD, h200, h201]
  · intro op h200 h201
    unfold jGetD at h200 h201
    simp [response_schema_of, jHasKey, jGetD, h200, h201]

def c7op200 : JValue := .obj [("responses",
  .obj [("200", .obj [("description", .str "ok")]), ("201", .obj [])])]

/-- Witness: with both `200` and `201` declared, the `200` response is the
one used. -/
theorem C7_response_selection_witness :
    response_schema_of c7op200 = build_response_schema (.obj [("description", .str "ok")]) :=
  C7_response_selection.1 c7op200 (.obj [("description", .str "ok")]) rfl

/-! ## C8: auth extraction -/

/-- A value with a non-empty field list is a mapping and truthy. -/
theorem truthy_of_objD_cons {v : JValue} {x : String × JValue}
    {xs : List (String × JValue)} (h : v.objD = x :: xs) : v.truthy = true := by
  cases v <;> simp [JValue.objD] at h
  case obj fs => simp [JValue.truthy, h]

/-- C8: auth extraction inspects `components.securitySchemes`; when it is
absent or empty there is no auth; otherwise exactly the first scheme in
document-iteration order is classified (schemes after the first never
influence the result), and an `http`/`bearer` scheme yields a bearer
`AuthConfig` with scheme label `"Bearer"`. -/
theorem C8_auth_extraction :
    (∀ spec : JValue,
        (jGetD (jGetD spec "components" (JValue.obj []))
          "securitySchemes" (JValue.obj [])).objD = [] →
        extract_auth spec = .ok none)
    ∧ (∀ (spec : JValue) (n : String) (scheme : JValue)
          (rest : List (String × JValue)),
        (jGetD (jGetD spec "components" (JValue.obj []))
          "securitySchemes" (JValue.obj [])).objD = (n, scheme) :: rest →
        extract_auth spec = classify_scheme scheme)
    ∧ (∀ scheme : JValue,
        pyLower (jGetStrD scheme "type" "") = "http" →
        pyLower (jGetStrD scheme "scheme" "") = "bearer" →
        classify_scheme scheme =
          .ok (some { type := .BEARER
                      scheme := some "Bearer"
                      description := jGet? scheme "description" })) := by
  refine ⟨?_, ?_, ?_⟩
  · intro spec h
    simp [extract_auth, h]
  · intro spec n scheme rest h
    have htr := truthy_of_objD_cons h
    simp [extract_auth, htr, h]
  · intro scheme h1 h2
    simp [classify_scheme, h1, h2]

def c8scheme : JValue := .obj [("type", .str "http"), ("scheme", .str "bearer"),
  ("description", .str "token auth")]

/-- Witness: a concrete HTTP-bearer scheme classifies to bearer/"Bearer". -/
theorem C8_auth_extraction_witness :
    classify_scheme c8scheme =
      .ok (some { type := .BEARER
                  scheme := some "Bearer"
                  description := jGet? c8scheme "description" }) :=
  C8_auth_extraction.2.2 c8scheme rfl rfl

/-! ## C9: post-parse invariants -/

def c9min_doc : JValue := .obj [("openapi", .str "3.0.0"), ("info", .obj []), ("paths", .obj [])]

/-- C9 counterexample: a valid document with an empty `paths` object and no
`servers` parses successfully, yet the resulting model has an empty
endpoint list and an unresolvable (`None`) primary server — the claimed
invariant does not hold for every successful parse. -/
theorem C9_counterexample :
    (parseLoaded (some c9min_doc)).map
      (fun s => (s.endpoints.isEmpty, s.primary_server.isNone)) = .ok (true, true) := rfl

/-- An Except-valued `mapM` that succeeds yields an empty list exactly on
the empty input. -/
theorem mapM_ok_nil {α β : Type} (f : α → Except PyExc β) (l : List α) (ys : List β)
    (h : l.mapM f = .ok ys) : ys = [] ↔ l = [] := by
  cases l with
  | nil =>
    simp [List.mapM, List.mapM.loop, pure, Except.pure] at h
    simp [← h]
  | cons x xs =>
    rw [List.mapM_cons] at h
    cases hx : f x with
    | error e =>
      rw [hx] at h
      simp [Bind.bind, Except.bind] at h
    | ok y =>
      rw [hx] at h
      simp only [Bind.bind, Except.bind] at h
      cases hxs : xs.mapM f with
      | error e =>
        rw [hxs] at h
        simp at h
      | ok ys2 =>
        rw [hxs] at h
        simp [pure, Except.pure] at h
        constructor
        · intro hy
          rw [← h] at hy
          simp at hy
        · intro hl
          simp at hl

/-- C9 (amended): a successfully parsed model satisfies the invariant only
conditionally — its endpoint list is empty exactly when no path item holds
a method key from the fixed set, and its primary server is unresolvable
(`None`) exactly when the document yields no server configurations. -/
theorem C9_amended (d : JValue) (s : NormalizedAPISpec)
    (h : parseLoaded (some d) = .ok s) :
    (s.endpoints = [] ↔
      ∀ pp ∈ (jGetD d "paths" (JValue.obj [])).objD, ∀ m ∈ methodOrder,
        jGet? pp.2 m.1 = none)
    ∧ (s.primary_server = none ↔ extract_servers d = []) := by
  simp only [parseLoaded] at h
  split at h
  · exact absurd h (by simp)
  · exact absurd h (by simp)
  · simp only [normalizeDoc] at h
    cases hE : extract_endpoints d with
    | error e =>
      rw [hE] at h
      simp at h
    | ok eps =>
      rw [hE] at h
      cases hA : extract_auth d with
      | error e =>
        rw [hA] at h
        simp at h
      | ok a =>
        rw [hA] at h
        simp only [Except.ok.injEq] at h
        subst h
        refine ⟨?_, ?_⟩
        · show eps = [] ↔ _
          rw [mapM_ok_nil _ _ _ hE]
          unfold present_operations
          rw [List.flatMap_eq_nil_iff]
          constructor
          · intro hall pp hpp m hm
            have hx := (List.filterMap_eq_nil_iff.mp (hall pp hpp)) m hm
            cases hg : jGet? pp.2 m.1 with
            | none => rfl
            | some op => rw [hg] at hx; simp at hx
          · intro hall pp hpp
            rw [List.filterMap_eq_nil_iff]
            intro m hm
            rw [hall pp hpp m hm]
        · unfold NormalizedAPISpec.primary_server
          cases hsv : extract_servers d with
          | nil => simp [buildSpec, hsv]
          | cons s0 rest => simp [buildSpec, hsv]

def c9wit_doc : JValue := .obj [("openapi", .str "3.0.0"), ("info", .obj []),
  ("paths", .obj [("/pets", .obj [("get", .obj [])])]),
  ("servers", .arr [.obj [("url", .str "https://api.example.com")]])]

/-- The endpoints the witness document extracts. -/
def c9wit_endpoints : List Endpoint :=
  (extract_endpoints c9wit_doc).toOption.getD []

/-- Witness: a one-endpoint, one-server document satisfies both amended
equivalences. -/
theorem C9_amended_witness :
    ((buildSpec c9wit_doc c9wit_endpoints none).endpoints = [] ↔
      ∀ pp ∈ (jGetD c9wit_doc "paths" (JValue.obj [])).objD, ∀ m ∈ methodOrder,
        jGet? pp.2 m.1 = none)
    ∧ ((buildSpec c9wit_doc c9wit_endpoints none).primary_server = none ↔
        extract_servers c9wit_doc = []) :=
  C9_amended c9wit_doc (buildSpec c9wit_doc c9wit_endpoints none) rfl

/-! ## C10: the discarded parameter schema -/

/-- C10: every `Parameter` built by parameter extraction has `schema =
none`, regardless of the input: the built `PropertySchema` travels under
the keyword `param_schema`, which matches no declared field of the model
(whose field is named `schema`), so the constructor's extra-ignoring
lookup discards it and the `schema` field keeps its `None` default.  The
second conjunct states the constructor-level mechanism. -/
theorem C10_param_schema_discarded :
    (∀ (param : JValue) (p : Parameter), build_parameter param = .ok p → p.schema = none)
    ∧ (∀ kwargs : List (String × PVal), List.lookup "schema" kwargs = none →
        (Parameter.fromKwargs kwargs).schema = none) := by
  refine ⟨?_, fun kwargs h => ?_⟩
  · intro param p h
    simp only [build_parameter] at h
    cases hot : openapi_type_to_python
        (jGetD (jGetD param "schema" (JValue.obj [])) "type" (JValue.str "string")) with
    | error e => rw [hot] at h; simp [Except.map] at h
    | ok t =>
      rw [hot] at h
      simp only [Except.map, Except.ok.injEq] at h
      rw [← h]
      rfl
  · simp [Parameter.fromKwargs, h]

/-- Witness: the empty keyword list leaves the schema field at its
default. -/
theorem C10_param_schema_discarded_witness :
    (Parameter.fromKwargs []).schema = none :=
  C10_param_schema_discarded.2 [] rfl
